import Mathlib

/-!
Shallow embedding of the authentication and authorization core of the
`Go_Temp` backend (Go sources under `internal/`): the user model with its
lockout helpers (`internal/models/user.go`), the JWT codec
(`internal/utils/jwt.go`), the user service register/login/change-password
flows (`internal/services/audit_service.go`, `UserService` section), the
two-factor OTP verifier (`internal/services/two_factor_service.go`, first
variant), the session store (`internal/services/session_service.go`) and
the RBAC role check (`internal/middleware/auth.go`).

Go `time.Time` values are modelled as `Nat` timestamps; `time.Now()` is an
explicit `now` parameter.  The database is modelled as in-memory lists of
rows; `First`/`Where` queries become `List.find?`/`List.filter` with the
same predicates, and `Save`/`Updates` become primary-key map-replacement.
Fallible Go functions returning `(T, error)` become `Except`/`Option`
values; error messages built with `errors.New` are kept verbatim as the
`String` payload so that theorems about which message is produced are
stated over the real messages.
-/

/-- Model of a Go `string` that holds a stored password.  The output of
`bcrypt.GenerateFromPassword` is a modular-crypt-format string
`$2a$cost$salt‖digest` in which the digest is a one-way function of the
input bytes; such a string is never equal to a plaintext that was stored
without hashing (in particular no string can be its own bcrypt hash, since
the hash strictly embeds prefix, cost and salt around the digest).  We
model this disjointness with a sum: `hashed src salt` stands for the
bcrypt hash string of the string modelled by `src` under salt `salt`, and
`plain s` stands for the raw string `s` stored as-is.
`bcrypt.CompareHashAndPassword` succeeds exactly on a well-formed hash
whose underlying input equals the candidate, and returns an error (hence
`false` at every call site) on a string that is not a bcrypt hash. -/
inductive GoPasswordString
  | plain (s : String)
  | hashed (src : GoPasswordString) (salt : Nat)
deriving DecidableEq, Repr

/-- `bcrypt.CompareHashAndPassword(hash, candidate) == nil`. -/
def compareHashAndPassword : GoPasswordString → String → Bool
  | .hashed src _, candidate => src = .plain candidate
  | .plain _, _ => false

/-- Go `u.Password != ""` on the modelled string. -/
def GoPasswordString.isEmptyStr : GoPasswordString → Bool
  | .plain s => s = ""
  | .hashed _ _ => false

/-- `models.RoleAdmin` (roles are bare strings in the source). -/
def RoleAdmin : String := "admin"
/-- `models.RoleModerator`. -/
def RoleModerator : String := "moderator"
/-- `models.RoleUser`. -/
def RoleUser : String := "user"

/-- `models.User` (`internal/models/user.go`), restricted to the fields the
authentication flows read or write. -/
structure User where
  id : Nat
  email : String
  username : String
  password : GoPasswordString
  firstName : String
  lastName : String
  role : String
  isActive : Bool
  failedLoginAttempts : Int
  accountLockedUntil : Option Nat
  lastLoginAt : Option Nat
  twoFactorEnabled : Bool
deriving DecidableEq, Repr

namespace User

/-- `User.CheckPassword`. -/
def checkPassword (u : User) (password : String) : Bool :=
  compareHashAndPassword u.password password

/-- `User.IsAccountLocked`: true iff `AccountLockedUntil` is set and
`time.Now().Before(*u.AccountLockedUntil)`. -/
def isAccountLocked (u : User) (now : Nat) : Bool :=
  match u.accountLockedUntil with
  | none => false
  | some t => now < t

/-- `User.LockAccount`. -/
def lockAccount (u : User) (now duration : Nat) : User :=
  { u with accountLockedUntil := some (now + duration) }

/-- `User.UnlockAccount`. -/
def unlockAccount (u : User) : User :=
  { u with accountLockedUntil := none, failedLoginAttempts := 0 }

/-- `User.IncrementFailedAttempts`. -/
def incrementFailedAttempts (u : User) : User :=
  { u with failedLoginAttempts := u.failedLoginAttempts + 1 }

/-- `User.ResetFailedAttempts`. -/
def resetFailedAttempts (u : User) : User :=
  { u with failedLoginAttempts := 0 }

/-- `User.ShouldLockAccount`: `FailedLoginAttempts >= maxAttempts`. -/
def shouldLockAccount (u : User) (maxAttempts : Int) : Bool :=
  maxAttempts ≤ u.failedLoginAttempts

/-- `User.BeforeCreate` gorm hook: hash a non-empty password, default the
role to `user` when unset.  `salt` models the random bcrypt salt. -/
def beforeCreate (salt : Nat) (u : User) : User :=
  let u1 := if u.password.isEmptyStr then u
            else { u with password := .hashed u.password salt }
  if u1.role = "" then { u1 with role := RoleUser } else u1

/-- `User.HasPermission` (`internal/models/user.go`). -/
def hasPermission (u : User) (requiredRole : String) : Bool :=
  if requiredRole = RoleAdmin then u.role = RoleAdmin
  else if requiredRole = RoleModerator then
    u.role = RoleAdmin || u.role = RoleModerator
  else if requiredRole = RoleUser then true
  else false

end User

/-- `hasRolePermission` (`internal/middleware/auth.go`). -/
def hasRolePermission (userRole requiredRole : String) : Bool :=
  if requiredRole = RoleAdmin then userRole = RoleAdmin
  else if requiredRole = RoleModerator then
    userRole = RoleAdmin || userRole = RoleModerator
  else if requiredRole = RoleUser then true
  else false

/-- `UserResponse` as produced by `User.ToResponse`, restricted to the
fields carried by the modelled `User`. -/
structure UserResponse where
  id : Nat
  email : String
  username : String
  firstName : String
  lastName : String
  role : String
  isActive : Bool
  twoFactorEnabled : Bool
  lastLoginAt : Option Nat
deriving DecidableEq, Repr

/-- `User.ToResponse`. -/
def User.toResponse (u : User) : UserResponse :=
  { id := u.id, email := u.email, username := u.username
    firstName := u.firstName, lastName := u.lastName, role := u.role
    isActive := u.isActive, twoFactorEnabled := u.twoFactorEnabled
    lastLoginAt := u.lastLoginAt }

/-! ## Token codec (`internal/utils/jwt.go`) -/

/-- `JWTClaims`: the custom fields plus the `jwt.RegisteredClaims` that
`GenerateToken` populates. -/
structure JWTClaims where
  userID : Nat
  email : String
  username : String
  role : String
  expiresAt : Nat
  issuedAt : Nat
  notBefore : Nat
  issuer : String
  subject : String
deriving DecidableEq, Repr

/-- Signing algorithms a presented token's header may advertise.  The
HMAC family (`HS*`) is what `jwt.SigningMethodHMAC` covers; `rs256` and
`noneAlg` (the unsigned `"none"` method) stand for the non-HMAC methods an
attacker may substitute. -/
inductive JWTAlg
  | hs256
  | hs384
  | hs512
  | rs256
  | noneAlg
deriving DecidableEq, Repr

/-- The keyfunc's type assertion `token.Method.(*jwt.SigningMethodHMAC)`. -/
def JWTAlg.isHMAC : JWTAlg → Bool
  | .hs256 | .hs384 | .hs512 => true
  | .rs256 | .noneAlg => false

/-- Ideal model of a MAC over the compact serialization: the signature
value is determined by (and checkable only against) the algorithm, the
key, and the signed claim set. -/
structure JWTSignature where
  alg : JWTAlg
  key : String
  claims : JWTClaims
deriving DecidableEq, Repr

/-- A token string presented to the codec: either not a parsable
three-part compact serialization, or a header advertising `alg`, a claim
set, and an optional signature part (`none` for an unsigned token). -/
inductive JWTToken
  | malformed
  | signed (alg : JWTAlg) (claims : JWTClaims) (sig : Option JWTSignature)
deriving DecidableEq, Repr

/-- The distinct validation failures of `jwt.ParseWithClaims` as used by
`ValidateToken`: a structurally invalid token, the keyfunc's
"unexpected signing method" error, the registered-claims expiry /
not-before / issued-at failures, and a signature mismatch. -/
inductive JWTError
  | malformed
  | unexpectedSigningMethod
  | expired
  | notValidYet
  | usedBeforeIssued
  | invalidSignature
deriving DecidableEq, Repr

namespace JWTService

/-- `JWTService.GenerateToken`: claims built from the user, `exp = now +
expiry`, `iat = nbf = now`, issuer `go-backend`, subject `user:<id>`,
signed with `jwt.SigningMethodHS256` under the service secret. -/
def generateToken (secret : String) (expiry : Nat) (now : Nat) (user : User) : JWTToken :=
  let claims : JWTClaims :=
    { userID := user.id, email := user.email, username := user.username
      role := user.role, expiresAt := now + expiry, issuedAt := now
      notBefore := now, issuer := "go-backend"
      subject := "user:" ++ toString user.id }
  .signed .hs256 claims (some { alg := .hs256, key := secret, claims })

/-- `JWTService.ValidateToken` via `jwt.ParseWithClaims`: a malformed
token fails to parse; the keyfunc rejects any non-HMAC signing method;
the registered claims are then checked (`exp` must be strictly in the
future, `nbf` and `iat` must not be in the future); finally the signature
must verify under the service secret. -/
def validateToken (secret : String) (tok : JWTToken) (now : Nat) :
    Except JWTError JWTClaims :=
  match tok with
  | .malformed => .error .malformed
  | .signed alg claims sig =>
    if !alg.isHMAC then .error .unexpectedSigningMethod
    else if !(now < claims.expiresAt) then .error .expired
    else if now < claims.notBefore then .error .notValidYet
    else if now < claims.issuedAt then .error .usedBeforeIssued
    else
      match sig with
      | none => .error .invalidSignature
      | some s =>
        if s = { alg := alg, key := secret, claims := claims } then .ok claims
        else .error .invalidSignature

end JWTService

/-- The `role` claim carried by a token's claim set, when the token has
one (consumers outside the core read this field to build request
context). -/
def JWTToken.roleClaim : JWTToken → Option String
  | .malformed => none
  | .signed _ c _ => some c.role

/-! ## User service (`internal/services/audit_service.go`, `UserService`) -/

/-- `models.LoginRequest`. -/
structure LoginRequest where
  email : String
  password : String
deriving DecidableEq, Repr

/-- `models.UserCreateRequest`. -/
structure UserCreateRequest where
  email : String
  username : String
  password : String
  firstName : String
  lastName : String
  role : String
deriving DecidableEq, Repr

/-- `models.LoginResponse`. -/
structure LoginResponse where
  token : JWTToken
  user : UserResponse
deriving DecidableEq, Repr

namespace UserService

/-- `UserService.Login`: find the user by email (`gorm.ErrRecordNotFound`
becomes the generic `invalid email or password` error); reject an
inactive account with the distinct `account is deactivated` message;
check the password (failure again yields the generic message); on success
generate a token.  No lockout field is consulted anywhere on this path.
The returned error is the `errors.New` message string. -/
def login (db : List User) (secret : String) (expiry : Nat) (now : Nat)
    (req : LoginRequest) : Except String LoginResponse :=
  match db.find? (fun u => u.email = req.email) with
  | none => .error "invalid email or password"
  | some user =>
    if !user.isActive then .error "account is deactivated"
    else if !user.checkPassword req.password then .error "invalid email or password"
    else .ok { token := JWTService.generateToken secret expiry now user
               user := user.toResponse }

/-- `UserService.Register`: reject when a user with the same email or
username exists; otherwise default the role to `user` when the request
left it empty, create the user (the gorm `BeforeCreate` hook hashes the
password; `newID` models the assigned primary key and `salt` the bcrypt
salt), generate a token, and return the response together with the new
database state. -/
def register (db : List User) (secret : String) (expiry : Nat) (now : Nat)
    (newID salt : Nat) (req : UserCreateRequest) :
    Except String (LoginResponse × List User) :=
  match db.find? (fun u => u.email = req.email || u.username = req.username) with
  | some existingUser =>
    if existingUser.email = req.email then
      .error "user with this email already exists"
    else .error "user with this username already exists"
  | none =>
    let role := if req.role = "" then RoleUser else req.role
    let user : User :=
      User.beforeCreate salt
        { id := newID, email := req.email, username := req.username
          password := .plain req.password, firstName := req.firstName
          lastName := req.lastName, role := role, isActive := true
          failedLoginAttempts := 0, accountLockedUntil := none
          lastLoginAt := none, twoFactorEnabled := false }
    .ok ({ token := JWTService.generateToken secret expiry now user
           user := user.toResponse }, db ++ [user])

/-- `UserService.ChangePassword`: find the user by id, verify the old
password, then assign the new password to the field **as-is** and `Save`
the row (the comment in the source itself notes the hashing would be done
"by BeforeUpdate hook if implemented" — no such hook exists, and
`BeforeCreate` does not run on `Save` of an existing row). -/
def changePassword (db : List User) (id : Nat) (oldPassword newPassword : String) :
    Except String (List User) :=
  match db.find? (fun u => u.id = id) with
  | none => .error "user not found"
  | some user =>
    if !user.checkPassword oldPassword then .error "invalid current password"
    else
      let updated := { user with password := .plain newPassword }
      .ok (db.map (fun u => if u.id = id then updated else u))

end UserService

/-! ## OTP verifier (`internal/services/two_factor_service.go`, the
`EmailVerification`-table variant whose `VerifyOTP` is at lines 98–126) -/

/-- `models.EmailVerification` (`internal/models/extended_models.go`),
restricted to the columns the OTP flow reads or writes. -/
structure EmailVerification where
  id : Nat
  userID : Nat
  email : String
  vtype : String
  code : String
  expiresAt : Nat
  usedAt : Option Nat
  createdAt : Nat
  updatedAt : Nat
deriving DecidableEq, Repr

namespace EmailVerification

/-- `EmailVerification.IsExpired`: `time.Now().After(ev.ExpiresAt)`. -/
def isExpired (ev : EmailVerification) (now : Nat) : Bool :=
  ev.expiresAt < now

/-- `EmailVerification.IsUsed`. -/
def isUsed (ev : EmailVerification) : Bool :=
  ev.usedAt ≠ none

/-- `EmailVerification.MarkAsUsed` followed by the gorm `Save` touching
`UpdatedAt`. -/
def markAsUsed (ev : EmailVerification) (now : Nat) : EmailVerification :=
  { ev with usedAt := some now, updatedAt := now }

end EmailVerification

/-- `TwoFactorMethod`. -/
inductive TwoFactorMethod
  | email
  | sms
  | totp
deriving DecidableEq, Repr

/-- The mutable rows the two-factor flow touches: the `users` table (for
the failed-attempt counter) and the `email_verifications` table. -/
structure AuthDB where
  users : List User
  verifications : List EmailVerification
deriving DecidableEq, Repr

namespace TwoFactorService

/-- The `verificationTypes` slice built at the top of `VerifyOTP`:
`["otp"]`, overwritten to `["sms_otp"]` for the SMS method. -/
def verificationTypes (method : TwoFactorMethod) : List String :=
  match method with
  | .sms => ["sms_otp"]
  | _ => ["otp"]

/-- The `WHERE` clause of `VerifyOTP`'s lookup: same user, type in the
method's list, code equal to the submitted one, not expired
(`expires_at > now`), never used (`used_at IS NULL`). -/
def otpMatches (uid : Nat) (types : List String) (code : String) (now : Nat)
    (r : EmailVerification) : Bool :=
  r.userID = uid && types.contains r.vtype && r.code = code
    && now < r.expiresAt && r.usedAt = none

/-- `ORDER BY created_at DESC ... First`: the row with the greatest
`created_at` among the matches (the earlier row wins a tie, matching a
stable ordering of the list model). -/
def findLatest : List EmailVerification → Option EmailVerification
  | [] => none
  | r :: rs =>
    match findLatest rs with
    | none => some r
    | some best => if r.createdAt < best.createdAt then some best else some r

/-- `TwoFactorService.incrementFailedAttempts`:
`UPDATE users SET failed_login_attempts = failed_login_attempts + 1
WHERE id = ?`. -/
def incrementFailedAttempts (db : AuthDB) (uid : Nat) : AuthDB :=
  { db with
    users := db.users.map (fun u =>
      if u.id = uid then
        { u with failedLoginAttempts := u.failedLoginAttempts + 1 }
      else u) }

/-- `TwoFactorService.VerifyOTP`: look up the most recent unused,
unexpired row for this user / type / code; on a miss increment the user's
failed-attempt counter and return `false`; on a hit mark that row used
(`Save` by primary key) and return `true`.  Nothing on the success path
touches the failed-attempt counter. -/
def verifyOTP (db : AuthDB) (uid : Nat) (providedOTP : String)
    (method : TwoFactorMethod) (now : Nat) : Bool × AuthDB :=
  let types := verificationTypes method
  match findLatest (db.verifications.filter (otpMatches uid types providedOTP now)) with
  | none => (false, incrementFailedAttempts db uid)
  | some v =>
    let v' := v.markAsUsed now
    (true, { db with
             verifications := db.verifications.map (fun r =>
               if r.id = v.id then v' else r) })

end TwoFactorService

/-! ## Session store (`internal/services/session_service.go`) -/

/-- `models.UserSession` as the session service populates it (the variant
keyed by a random `Token` column, with uuid identifiers modelled as
strings). -/
structure UserSession where
  id : String
  userID : String
  token : String
  ipAddress : String
  userAgent : String
  isActive : Bool
  createdAt : Nat
  updatedAt : Nat
  expiresAt : Nat
deriving DecidableEq, Repr

namespace SessionService

/-- `SessionService.ValidateSession`: `WHERE token = ? AND is_active = ?
AND expires_at > ? ... First`; on a hit touch `UpdatedAt` ("update last
accessed time") and `Save`, returning the touched session; on a miss
return the store's generic not-found error (modelled as `none`). -/
def validateSession (sessions : List UserSession) (token : String) (now : Nat) :
    Option UserSession × List UserSession :=
  match sessions.find? (fun s => s.token = token && s.isActive && now < s.expiresAt) with
  | none => (none, sessions)
  | some s =>
    let s' := { s with updatedAt := now }
    (some s', sessions.map (fun r => if r.id = s.id then s' else r))

/-- `SessionService.InvalidateUserSessions`: `UPDATE user_sessions SET
is_active = false, updated_at = now WHERE user_id = ? AND is_active`. -/
def invalidateUserSessions (sessions : List UserSession) (uid : String) (now : Nat) :
    List UserSession :=
  sessions.map (fun s =>
    if s.userID = uid && s.isActive then
      { s with isActive := false, updatedAt := now }
    else s)

end SessionService


/-! ## Theorems -/

/-- C8: the role-hierarchy check satisfies the full truth table of the
strict order Admin > Moderator > User on the closed role set:
`hasRolePermission(Admin, X)` holds for every X, Moderator satisfies
Moderator and User but not Admin, and User satisfies only User. -/
theorem rbac_hierarchy_table :
    hasRolePermission RoleAdmin RoleAdmin = true ∧
    hasRolePermission RoleAdmin RoleModerator = true ∧
    hasRolePermission RoleAdmin RoleUser = true ∧
    hasRolePermission RoleModerator RoleModerator = true ∧
    hasRolePermission RoleModerator RoleAdmin = false ∧
    hasRolePermission RoleUser RoleAdmin = false ∧
    hasRolePermission RoleUser RoleModerator = false ∧
    hasRolePermission RoleModerator RoleUser = true ∧
    hasRolePermission RoleUser RoleUser = true := by decide

/-- C5: for every identity and every positive token TTL, validating a
token immediately after generating it succeeds, and the returned claims
carry exactly the identity's id, email, username and role. -/
theorem token_roundtrip (secret : String) (expiry now : Nat) (u : User)
    (hexp : 0 < expiry) :
    ∃ c, JWTService.validateToken secret
        (JWTService.generateToken secret expiry now u) now = Except.ok c ∧
      c.userID = u.id ∧ c.email = u.email ∧ c.username = u.username ∧
      c.role = u.role := by
  refine ⟨{ userID := u.id, email := u.email, username := u.username
            role := u.role, expiresAt := now + expiry, issuedAt := now
            notBefore := now, issuer := "go-backend"
            subject := "user:" ++ toString u.id }, ?_, rfl, rfl, rfl, rfl⟩
  have h1 : now < now + expiry := Nat.lt_add_of_pos_right hexp
  simp [JWTService.generateToken, JWTService.validateToken, JWTAlg.isHMAC, h1]

/-- Witness for `token_roundtrip` at a concrete identity and TTL. -/
theorem token_roundtrip_witness :
    ∃ c, JWTService.validateToken "k"
        (JWTService.generateToken "k" 3600 100
          { id := 1, email := "a@x.com", username := "alice"
            password := .hashed (.plain "pw123456") 7, firstName := "A"
            lastName := "X", role := "user", isActive := true
            failedLoginAttempts := 0, accountLockedUntil := none
            lastLoginAt := none, twoFactorEnabled := false }) 100 = Except.ok c ∧
      c.userID = 1 ∧ c.email = "a@x.com" ∧ c.username = "alice" ∧
      c.role = "user" :=
  token_roundtrip "k" 3600 100
    { id := 1, email := "a@x.com", username := "alice"
      password := .hashed (.plain "pw123456") 7, firstName := "A"
      lastName := "X", role := "user", isActive := true
      failedLoginAttempts := 0, accountLockedUntil := none
      lastLoginAt := none, twoFactorEnabled := false } (by decide)

/-- C6: token validation rejects (a) any token whose advertised signing
algorithm is outside the HMAC family — in particular the unsigned
`none` algorithm — with the keyfunc's unexpected-signing-method error,
(b) any HMAC token whose expiry is not in the future, with the expiry
error, and (c) any structurally invalid token. -/
theorem validateToken_rejections :
    (∀ (secret : String) (alg : JWTAlg) (claims : JWTClaims)
        (sig : Option JWTSignature) (now : Nat),
      alg.isHMAC = false →
      JWTService.validateToken secret (.signed alg claims sig) now =
        Except.error .unexpectedSigningMethod) ∧
    (∀ (secret : String) (alg : JWTAlg) (claims : JWTClaims)
        (sig : Option JWTSignature) (now : Nat),
      alg.isHMAC = true → claims.expiresAt ≤ now →
      JWTService.validateToken secret (.signed alg claims sig) now =
        Except.error .expired) ∧
    (∀ (secret : String) (now : Nat),
      JWTService.validateToken secret .malformed now =
        Except.error .malformed) := by
  refine ⟨?_, ?_, ?_⟩
  · intro secret alg claims sig now h
    simp [JWTService.validateToken, h]
  · intro secret alg claims sig now hh hexp
    have hlt : ¬ (now < claims.expiresAt) := Nat.not_lt.mpr hexp
    simp [JWTService.validateToken, hh, hlt]
  · intro secret now
    rfl

/-- Witness for `validateToken_rejections`: a concrete unsigned
`none`-algorithm token is rejected, and a concrete expired HMAC token is
rejected with the expiry error. -/
theorem validateToken_rejections_witness :
    JWTService.validateToken "k"
      (.signed .noneAlg
        { userID := 1, email := "a@x.com", username := "alice"
          role := "admin", expiresAt := 1000, issuedAt := 0, notBefore := 0
          issuer := "go-backend", subject := "user:1" } none) 5 =
      Except.error .unexpectedSigningMethod ∧
    JWTService.validateToken "k"
      (.signed .hs256
        { userID := 1, email := "a@x.com", username := "alice"
          role := "admin", expiresAt := 1000, issuedAt := 0, notBefore := 0
          issuer := "go-backend", subject := "user:1" } none) 1000 =
      Except.error .expired :=
  ⟨validateToken_rejections.1 "k" .noneAlg _ none 5 (by decide),
   validateToken_rejections.2.1 "k" .hs256 _ none 1000 (by decide) (by decide)⟩

/-- C1 (code bug): `UserService.Login` never consults the lockout state.
A concrete identity whose failed-attempt counter has reached the
threshold (5) and whose `AccountLockedUntil` lies in the future — so both
`User.ShouldLockAccount` and `User.IsAccountLocked` report a lock — still
logs in successfully with the correct password: no `AccountLocked`
rejection happens before (or after) password verification, and the
counter is not reset either. -/
theorem login_ignores_lockout_bug :
    User.isAccountLocked
      { id := 1, email := "a@x.com", username := "alice"
        password := .hashed (.plain "pw123456") 7, firstName := "A"
        lastName := "X", role := "user", isActive := true
        failedLoginAttempts := 5, accountLockedUntil := some 1900
        lastLoginAt := none, twoFactorEnabled := false } 1000 = true ∧
    User.shouldLockAccount
      { id := 1, email := "a@x.com", username := "alice"
        password := .hashed (.plain "pw123456") 7, firstName := "A"
        lastName := "X", role := "user", isActive := true
        failedLoginAttempts := 5, accountLockedUntil := some 1900
        lastLoginAt := none, twoFactorEnabled := false } 5 = true ∧
    (UserService.login
      [{ id := 1, email := "a@x.com", username := "alice"
         password := .hashed (.plain "pw123456") 7, firstName := "A"
         lastName := "X", role := "user", isActive := true
         failedLoginAttempts := 5, accountLockedUntil := some 1900
         lastLoginAt := none, twoFactorEnabled := false }]
      "secret" 3600 1000
      { email := "a@x.com", password := "pw123456" }).isOk = true := by
  decide

/-- C2 counterexample: a login attempt against a concrete inactive
identity is answered with the distinct message `account is deactivated`,
not the single generic `invalid email or password` error the claim
requires — the response reveals which condition held. -/
theorem login_inactive_message_cex :
    UserService.login
      [{ id := 2, email := "b@x.com", username := "bob"
         password := .hashed (.plain "pw") 3, firstName := "B"
         lastName := "Y", role := "user", isActive := false
         failedLoginAttempts := 0, accountLockedUntil := none
         lastLoginAt := none, twoFactorEnabled := false }]
      "secret" 3600 1000 { email := "b@x.com", password := "pw" } =
      Except.error "account is deactivated" ∧
    "account is deactivated" ≠ "invalid email or password" :=
  ⟨rfl, by decide⟩

/-- C2 amended: an unknown email and a wrong password both produce the
same generic `invalid email or password` error, but an inactive identity
receives the distinct `account is deactivated` message (revealing that
condition), and a locked identity is not treated specially at all. -/
theorem login_error_messages (db : List User) (secret : String)
    (expiry now : Nat) (req : LoginRequest) :
    (db.find? (fun u => u.email = req.email) = none →
      UserService.login db secret expiry now req =
        Except.error "invalid email or password") ∧
    (∀ u, db.find? (fun u' => u'.email = req.email) = some u →
      u.isActive = false →
      UserService.login db secret expiry now req =
        Except.error "account is deactivated") ∧
    (∀ u, db.find? (fun u' => u'.email = req.email) = some u →
      u.isActive = true → u.checkPassword req.password = false →
      UserService.login db secret expiry now req =
        Except.error "invalid email or password") := by
  refine ⟨?_, ?_, ?_⟩
  · intro h
    simp [UserService.login, h]
  · intro u h hact
    simp [UserService.login, h, hact]
  · intro u h hact hpw
    simp [UserService.login, h, hact, hpw]

/-- Witness for `login_error_messages`: the unknown-email and
inactive-account branches at concrete inputs. -/
theorem login_error_messages_witness :
    UserService.login [] "k" 60 0 { email := "x@x.com", password := "p" } =
      Except.error "invalid email or password" ∧
    UserService.login
      [{ id := 2, email := "b@x.com", username := "bob"
         password := .hashed (.plain "pw") 3, firstName := "B"
         lastName := "Y", role := "user", isActive := false
         failedLoginAttempts := 0, accountLockedUntil := none
         lastLoginAt := none, twoFactorEnabled := false }]
      "k" 60 0 { email := "b@x.com", password := "pw" } =
      Except.error "account is deactivated" :=
  ⟨(login_error_messages [] "k" 60 0
      { email := "x@x.com", password := "p" }).1 rfl,
   (login_error_messages
      [{ id := 2, email := "b@x.com", username := "bob"
         password := .hashed (.plain "pw") 3, firstName := "B"
         lastName := "Y", role := "user", isActive := false
         failedLoginAttempts := 0, accountLockedUntil := none
         lastLoginAt := none, twoFactorEnabled := false }]
      "k" 60 0 { email := "b@x.com", password := "pw" }).2.1
     { id := 2, email := "b@x.com", username := "bob"
       password := .hashed (.plain "pw") 3, firstName := "B"
       lastName := "Y", role := "user", isActive := false
       failedLoginAttempts := 0, accountLockedUntil := none
       lastLoginAt := none, twoFactorEnabled := false }
     rfl rfl⟩

/-- C10: whenever `ChangePassword` succeeds, the stored password field of
the affected row equals the plaintext new password — the save path
applies no hashing — and therefore `CheckPassword` with that very new
password returns false against the stored record. -/
theorem changePassword_stores_plaintext (db : List User) (id : Nat)
    (oldPassword newPassword : String) (db' : List User)
    (h : UserService.changePassword db id oldPassword newPassword =
      Except.ok db') :
    ∀ u' ∈ db', u'.id = id →
      u'.password = .plain newPassword ∧
      u'.checkPassword newPassword = false := by
  intro u' hu' hid
  cases hfind : db.find? (fun u => u.id = id) with
  | none =>
    simp [UserService.changePassword, hfind] at h
  | some user =>
    cases hpw : user.checkPassword oldPassword with
    | false =>
      simp [UserService.changePassword, hfind, hpw] at h
    | true =>
      simp only [UserService.changePassword, hfind, hpw, Bool.not_true,
        Bool.false_eq_true, if_false, Except.ok.injEq] at h
      subst h
      obtain ⟨a, _, hfa⟩ := List.mem_map.mp hu'
      by_cases hida : a.id = id
      · rw [if_pos hida] at hfa
        subst hfa
        exact ⟨rfl, rfl⟩
      · rw [if_neg hida] at hfa
        subst hfa
        exact absurd hid hida

/-- Witness for `changePassword_stores_plaintext` at a concrete store:
the stored row after the concrete password change holds the plaintext
and fails its own password check. -/
theorem changePassword_stores_plaintext_witness :
    ({ id := 1, email := "a@x.com", username := "alice"
       password := GoPasswordString.plain "npw", firstName := "A"
       lastName := "X", role := "user", isActive := true
       failedLoginAttempts := 0, accountLockedUntil := none
       lastLoginAt := none, twoFactorEnabled := false : User }).password =
        .plain "npw" ∧
    ({ id := 1, email := "a@x.com", username := "alice"
       password := GoPasswordString.plain "npw", firstName := "A"
       lastName := "X", role := "user", isActive := true
       failedLoginAttempts := 0, accountLockedUntil := none
       lastLoginAt := none, twoFactorEnabled := false : User }).checkPassword
        "npw" = false :=
  changePassword_stores_plaintext
    [{ id := 1, email := "a@x.com", username := "alice"
       password := .hashed (.plain "opw") 4, firstName := "A"
       lastName := "X", role := "user", isActive := true
       failedLoginAttempts := 0, accountLockedUntil := none
       lastLoginAt := none, twoFactorEnabled := false }]
    1 "opw" "npw"
    [{ id := 1, email := "a@x.com", username := "alice"
       password := GoPasswordString.plain "npw", firstName := "A"
       lastName := "X", role := "user", isActive := true
       failedLoginAttempts := 0, accountLockedUntil := none
       lastLoginAt := none, twoFactorEnabled := false }]
    rfl
    { id := 1, email := "a@x.com", username := "alice"
      password := GoPasswordString.plain "npw", firstName := "A"
      lastName := "X", role := "user", isActive := true
      failedLoginAttempts := 0, accountLockedUntil := none
      lastLoginAt := none, twoFactorEnabled := false }
    (by simp) rfl

/-- The row returned by the `ORDER BY created_at DESC ... First` model is
one of the rows it was selected from. -/
theorem TwoFactorService.findLatest_mem {l : List EmailVerification}
    {v : EmailVerification} (h : TwoFactorService.findLatest l = some v) :
    v ∈ l := by
  induction l with
  | nil => simp [TwoFactorService.findLatest] at h
  | cons r rs ih =>
    cases hr : TwoFactorService.findLatest rs with
    | none =>
      simp only [TwoFactorService.findLatest, hr, Option.some.injEq] at h
      subst h
      exact List.mem_cons_self _ _
    | some best =>
      simp only [TwoFactorService.findLatest, hr] at h
      by_cases hc : r.createdAt < best.createdAt
      · rw [if_pos hc] at h
        injection h with h
        subst h
        exact List.mem_cons_of_mem _ (ih hr)
      · rw [if_neg hc] at h
        injection h with h
        subst h
        exact List.mem_cons_self _ _

/-- The `First` model returns no row exactly on an empty selection. -/
theorem TwoFactorService.findLatest_eq_none {l : List EmailVerification} :
    TwoFactorService.findLatest l = none ↔ l = [] := by
  cases l with
  | nil => simp [TwoFactorService.findLatest]
  | cons r rs =>
    constructor
    · intro h
      cases hr : TwoFactorService.findLatest rs with
      | none =>
        simp only [TwoFactorService.findLatest, hr] at h
        exact absurd h (by simp)
      | some best =>
        simp only [TwoFactorService.findLatest, hr] at h
        by_cases hc : r.createdAt < best.createdAt
        · rw [if_pos hc] at h
          exact absurd h (by simp)
        · rw [if_neg hc] at h
          exact absurd h (by simp)
    · intro h
      exact absurd h (by simp)

/-- Unfolding of a successful `VerifyOTP` row match: the row belongs to
the queried user, carries a type in the method's list and the submitted
code, is unexpired, and was never used. -/
theorem TwoFactorService.otpMatches_spec {uid : Nat} {types : List String}
    {code : String} {now : Nat} {r : EmailVerification}
    (h : TwoFactorService.otpMatches uid types code now r = true) :
    r.userID = uid ∧ types.contains r.vtype = true ∧ r.code = code ∧
    now < r.expiresAt ∧ r.usedAt = none := by
  simp only [TwoFactorService.otpMatches, Bool.and_eq_true,
    decide_eq_true_eq] at h
  exact ⟨h.1.1.1.1, h.1.1.1.2, h.1.1.2, h.1.2, h.2⟩

/-- C3 counterexample: on a concrete store holding an identity with
failed-attempt counter 3 and a matching live OTP row, `VerifyOTP`
succeeds but the identity's failed-attempt counter stays 3 instead of
being reset to 0 as the claim requires. -/
theorem verifyOTP_no_reset_cex :
    (TwoFactorService.verifyOTP
      { users := [{ id := 1, email := "a@x.com", username := "alice"
                    password := .hashed (.plain "pw") 7, firstName := "A"
                    lastName := "X", role := "user", isActive := true
                    failedLoginAttempts := 3, accountLockedUntil := none
                    lastLoginAt := none, twoFactorEnabled := false }]
        verifications := [{ id := 1, userID := 1, email := "a@x.com"
                            vtype := "otp", code := "123456", expiresAt := 2000
                            usedAt := none, createdAt := 10, updatedAt := 10 }] }
      1 "123456" .email 100).fst = true ∧
    ((TwoFactorService.verifyOTP
      { users := [{ id := 1, email := "a@x.com", username := "alice"
                    password := .hashed (.plain "pw") 7, firstName := "A"
                    lastName := "X", role := "user", isActive := true
                    failedLoginAttempts := 3, accountLockedUntil := none
                    lastLoginAt := none, twoFactorEnabled := false }]
        verifications := [{ id := 1, userID := 1, email := "a@x.com"
                            vtype := "otp", code := "123456", expiresAt := 2000
                            usedAt := none, createdAt := 10, updatedAt := 10 }] }
      1 "123456" .email 100).snd.users.map User.failedLoginAttempts) = [3] ∧
    (3 : Int) ≠ 0 := by
  decide

/-- C3 amended: `VerifyOTP` fails closed — it returns false exactly when
no unused, unexpired row with the submitted code matches, and in that
case it increments the identity's failed-attempt counter; on a
successful match it marks the matched row used, but it leaves the users
table — in particular the failed-attempt counter — untouched, performing
no reset. -/
theorem verifyOTP_failclosed (db : AuthDB) (uid : Nat) (otp : String)
    (method : TwoFactorMethod) (now : Nat) :
    ((TwoFactorService.verifyOTP db uid otp method now).fst = true →
      (∃ v ∈ db.verifications,
        TwoFactorService.otpMatches uid
          (TwoFactorService.verificationTypes method) otp now v = true) ∧
      (TwoFactorService.verifyOTP db uid otp method now).snd.users = db.users ∧
      ∃ v' ∈ (TwoFactorService.verifyOTP db uid otp method now).snd.verifications,
        v'.usedAt = some now ∧ v'.userID = uid ∧ v'.code = otp) ∧
    ((TwoFactorService.verifyOTP db uid otp method now).fst = false →
      (∀ v ∈ db.verifications,
        TwoFactorService.otpMatches uid
          (TwoFactorService.verificationTypes method) otp now v = false) ∧
      (TwoFactorService.verifyOTP db uid otp method now).snd =
        TwoFactorService.incrementFailedAttempts db uid) := by
  cases hf : TwoFactorService.findLatest
      (db.verifications.filter
        (TwoFactorService.otpMatches uid
          (TwoFactorService.verificationTypes method) otp now)) with
  | none =>
    constructor
    · intro htrue
      simp [TwoFactorService.verifyOTP, hf] at htrue
    · intro _
      have hnil := TwoFactorService.findLatest_eq_none.mp hf
      have hall := List.filter_eq_nil_iff.mp hnil
      refine ⟨fun v hv => ?_, ?_⟩
      · have hnv := hall v hv
        simpa using hnv
      · simp [TwoFactorService.verifyOTP, hf]
  | some v =>
    constructor
    · intro _
      have hvmem := TwoFactorService.findLatest_mem hf
      obtain ⟨hvin, hvp⟩ := List.mem_filter.mp hvmem
      have hspec := TwoFactorService.otpMatches_spec hvp
      refine ⟨⟨v, hvin, hvp⟩, ?_, ?_⟩
      · simp [TwoFactorService.verifyOTP, hf]
      · refine ⟨v.markAsUsed now, ?_, rfl, ?_, ?_⟩
        · simp only [TwoFactorService.verifyOTP, hf]
          exact List.mem_map.mpr ⟨v, hvin, by simp⟩
        · simpa [EmailVerification.markAsUsed] using hspec.1
        · simpa [EmailVerification.markAsUsed] using hspec.2.2.1
    · intro hfalse
      simp [TwoFactorService.verifyOTP, hf] at hfalse

/-- Witness for `verifyOTP_failclosed`: the success branch at a concrete
store with a live matching row, and the fail-closed branch at a store
with no row for the submitted code. -/
theorem verifyOTP_failclosed_witness :
    ((∃ v ∈ ({ users := [{ id := 1, email := "a@x.com", username := "alice"
                           password := .hashed (.plain "pw") 7, firstName := "A"
                           lastName := "X", role := "user", isActive := true
                           failedLoginAttempts := 3, accountLockedUntil := none
                           lastLoginAt := none, twoFactorEnabled := false }]
               verifications := [{ id := 1, userID := 1, email := "a@x.com"
                                   vtype := "otp", code := "123456"
                                   expiresAt := 2000, usedAt := none
                                   createdAt := 10, updatedAt := 10 }] } : AuthDB).verifications,
        TwoFactorService.otpMatches 1
          (TwoFactorService.verificationTypes .email) "123456" 100 v = true) ∧
      (TwoFactorService.verifyOTP
        { users := [{ id := 1, email := "a@x.com", username := "alice"
                      password := .hashed (.plain "pw") 7, firstName := "A"
                      lastName := "X", role := "user", isActive := true
                      failedLoginAttempts := 3, accountLockedUntil := none
                      lastLoginAt := none, twoFactorEnabled := false }]
          verifications := [{ id := 1, userID := 1, email := "a@x.com"
                              vtype := "otp", code := "123456", expiresAt := 2000
                              usedAt := none, createdAt := 10, updatedAt := 10 }] }
        1 "123456" .email 100).snd.users =
        ({ users := [{ id := 1, email := "a@x.com", username := "alice"
                       password := .hashed (.plain "pw") 7, firstName := "A"
                       lastName := "X", role := "user", isActive := true
                       failedLoginAttempts := 3, accountLockedUntil := none
                       lastLoginAt := none, twoFactorEnabled := false }]
           verifications := [{ id := 1, userID := 1, email := "a@x.com"
                               vtype := "otp", code := "123456", expiresAt := 2000
                               usedAt := none, createdAt := 10, updatedAt := 10 }] } : AuthDB).users ∧
      ∃ v' ∈ (TwoFactorService.verifyOTP
        { users := [{ id := 1, email := "a@x.com", username := "alice"
                      password := .hashed (.plain "pw") 7, firstName := "A"
                      lastName := "X", role := "user", isActive := true
                      failedLoginAttempts := 3, accountLockedUntil := none
                      lastLoginAt := none, twoFactorEnabled := false }]
          verifications := [{ id := 1, userID := 1, email := "a@x.com"
                              vtype := "otp", code := "123456", expiresAt := 2000
                              usedAt := none, createdAt := 10, updatedAt := 10 }] }
        1 "123456" .email 100).snd.verifications,
        v'.usedAt = some 100 ∧ v'.userID = 1 ∧ v'.code = "123456") ∧
    ((∀ v ∈ ({ users := [{ id := 1, email := "a@x.com", username := "alice"
                           password := .hashed (.plain "pw") 7, firstName := "A"
                           lastName := "X", role := "user", isActive := true
                           failedLoginAttempts := 3, accountLockedUntil := none
                           lastLoginAt := none, twoFactorEnabled := false }]
               verifications := [] } : AuthDB).verifications,
        TwoFactorService.otpMatches 1
          (TwoFactorService.verificationTypes .email) "000000" 100 v = false) ∧
      (TwoFactorService.verifyOTP
        { users := [{ id := 1, email := "a@x.com", username := "alice"
                      password := .hashed (.plain "pw") 7, firstName := "A"
                      lastName := "X", role := "user", isActive := true
                      failedLoginAttempts := 3, accountLockedUntil := none
                      lastLoginAt := none, twoFactorEnabled := false }]
          verifications := [] }
        1 "000000" .email 100).snd =
        TwoFactorService.incrementFailedAttempts
          { users := [{ id := 1, email := "a@x.com", username := "alice"
                        password := .hashed (.plain "pw") 7, firstName := "A"
                        lastName := "X", role := "user", isActive := true
                        failedLoginAttempts := 3, accountLockedUntil := none
                        lastLoginAt := none, twoFactorEnabled := false }]
            verifications := [] } 1) :=
  ⟨(verifyOTP_failclosed
      { users := [{ id := 1, email := "a@x.com", username := "alice"
                    password := .hashed (.plain "pw") 7, firstName := "A"
                    lastName := "X", role := "user", isActive := true
                    failedLoginAttempts := 3, accountLockedUntil := none
                    lastLoginAt := none, twoFactorEnabled := false }]
        verifications := [{ id := 1, userID := 1, email := "a@x.com"
                            vtype := "otp", code := "123456", expiresAt := 2000
                            usedAt := none, createdAt := 10, updatedAt := 10 }] }
      1 "123456" .email 100).1 (by decide),
   (verifyOTP_failclosed
      { users := [{ id := 1, email := "a@x.com", username := "alice"
                    password := .hashed (.plain "pw") 7, firstName := "A"
                    lastName := "X", role := "user", isActive := true
                    failedLoginAttempts := 3, accountLockedUntil := none
                    lastLoginAt := none, twoFactorEnabled := false }]
        verifications := [] }
      1 "000000" .email 100).2 (by decide)⟩

/-- C4 counterexample: two coexisting OTP rows for the same identity and
purpose carry the same code value (`Generate`/`Issue` never invalidates
prior rows, so this state is reachable).  The first `VerifyOTP` consumes
the newer row and sets its used-at; a later `VerifyOTP` with the very
same code value for the same identity and purpose still returns true
(consuming the older row) — so a code value whose record has used-at set
can satisfy a later verification, contradicting the claim as stated. -/
theorem verifyOTP_duplicate_code_cex :
    (TwoFactorService.verifyOTP
      { users := [{ id := 1, email := "a@x.com", username := "alice"
                    password := .hashed (.plain "pw") 7, firstName := "A"
                    lastName := "X", role := "user", isActive := true
                    failedLoginAttempts := 0, accountLockedUntil := none
                    lastLoginAt := none, twoFactorEnabled := false }]
        verifications := [{ id := 1, userID := 1, email := "a@x.com"
                            vtype := "otp", code := "111111", expiresAt := 1000
                            usedAt := none, createdAt := 10, updatedAt := 10 },
                          { id := 2, userID := 1, email := "a@x.com"
                            vtype := "otp", code := "111111", expiresAt := 1000
                            usedAt := none, createdAt := 20, updatedAt := 20 }] }
      1 "111111" .email 100).fst = true ∧
    (∃ v' ∈ (TwoFactorService.verifyOTP
      { users := [{ id := 1, email := "a@x.com", username := "alice"
                    password := .hashed (.plain "pw") 7, firstName := "A"
                    lastName := "X", role := "user", isActive := true
                    failedLoginAttempts := 0, accountLockedUntil := none
                    lastLoginAt := none, twoFactorEnabled := false }]
        verifications := [{ id := 1, userID := 1, email := "a@x.com"
                            vtype := "otp", code := "111111", expiresAt := 1000
                            usedAt := none, createdAt := 10, updatedAt := 10 },
                          { id := 2, userID := 1, email := "a@x.com"
                            vtype := "otp", code := "111111", expiresAt := 1000
                            usedAt := none, createdAt := 20, updatedAt := 20 }] }
      1 "111111" .email 100).snd.verifications,
      v'.usedAt = some 100 ∧ v'.code = "111111") ∧
    (TwoFactorService.verifyOTP
      (TwoFactorService.verifyOTP
        { users := [{ id := 1, email := "a@x.com", username := "alice"
                      password := .hashed (.plain "pw") 7, firstName := "A"
                      lastName := "X", role := "user", isActive := true
                      failedLoginAttempts := 0, accountLockedUntil := none
                      lastLoginAt := none, twoFactorEnabled := false }]
          verifications := [{ id := 1, userID := 1, email := "a@x.com"
                              vtype := "otp", code := "111111", expiresAt := 1000
                              usedAt := none, createdAt := 10, updatedAt := 10 },
                            { id := 2, userID := 1, email := "a@x.com"
                              vtype := "otp", code := "111111", expiresAt := 1000
                              usedAt := none, createdAt := 20, updatedAt := 20 }] }
        1 "111111" .email 100).snd
      1 "111111" .email 101).fst = true := by
  decide

/-- C4 amended: a row whose used-at is set or whose expiry has passed
never satisfies the verification query, so when every row for the
identity and purpose carrying the submitted code is used or expired,
`VerifyOTP` returns false — the same row can never be consumed twice.
(A different coexisting unused, unexpired row with the same code value
can still make a later `VerifyOTP` succeed, as the counterexample
shows.) -/
theorem otp_single_use_per_record (db : AuthDB) (uid : Nat) (otp : String)
    (method : TwoFactorMethod) (now : Nat) :
    (∀ r : EmailVerification, (r.usedAt ≠ none ∨ r.expiresAt ≤ now) →
      TwoFactorService.otpMatches uid
        (TwoFactorService.verificationTypes method) otp now r = false) ∧
    ((∀ r ∈ db.verifications, r.userID = uid →
        (TwoFactorService.verificationTypes method).contains r.vtype = true →
        r.code = otp → (r.usedAt ≠ none ∨ r.expiresAt ≤ now)) →
      (TwoFactorService.verifyOTP db uid otp method now).fst = false) := by
  constructor
  · intro r hr
    cases hr with
    | inl hused =>
      simp [TwoFactorService.otpMatches, hused]
    | inr hexp =>
      have hlt : ¬ (now < r.expiresAt) := Nat.not_lt.mpr hexp
      simp [TwoFactorService.otpMatches, hlt]
  · intro hall
    have hnil : db.verifications.filter
        (TwoFactorService.otpMatches uid
          (TwoFactorService.verificationTypes method) otp now) = [] := by
      rw [List.filter_eq_nil_iff]
      intro r hrmem hmatch
      have hspec := TwoFactorService.otpMatches_spec (by simpa using hmatch)
      have hdead := hall r hrmem hspec.1 hspec.2.1 hspec.2.2.1
      cases hdead with
      | inl hused => exact absurd hspec.2.2.2.2 hused
      | inr hexp => exact absurd hspec.2.2.2.1 (Nat.not_lt.mpr hexp)
    simp [TwoFactorService.verifyOTP, hnil, TwoFactorService.findLatest]

/-- Witness for `otp_single_use_per_record`: a concrete already-used row
fails the match predicate, and a store whose only row for the code is
used makes `VerifyOTP` return false. -/
theorem otp_single_use_per_record_witness :
    TwoFactorService.otpMatches 1
      (TwoFactorService.verificationTypes .email) "111111" 100
      { id := 2, userID := 1, email := "a@x.com", vtype := "otp"
        code := "111111", expiresAt := 1000, usedAt := some 50
        createdAt := 20, updatedAt := 50 } = false ∧
    (TwoFactorService.verifyOTP
      { users := [{ id := 1, email := "a@x.com", username := "alice"
                    password := .hashed (.plain "pw") 7, firstName := "A"
                    lastName := "X", role := "user", isActive := true
                    failedLoginAttempts := 0, accountLockedUntil := none
                    lastLoginAt := none, twoFactorEnabled := false }]
        verifications := [{ id := 2, userID := 1, email := "a@x.com"
                            vtype := "otp", code := "111111", expiresAt := 1000
                            usedAt := some 50, createdAt := 20
                            updatedAt := 50 }] }
      1 "111111" .email 100).fst = false :=
  ⟨(otp_single_use_per_record
      { users := [], verifications := [] } 1 "111111" .email 100).1
      { id := 2, userID := 1, email := "a@x.com", vtype := "otp"
        code := "111111", expiresAt := 1000, usedAt := some 50
        createdAt := 20, updatedAt := 50 } (Or.inl (by decide)),
   (otp_single_use_per_record
      { users := [{ id := 1, email := "a@x.com", username := "alice"
                    password := .hashed (.plain "pw") 7, firstName := "A"
                    lastName := "X", role := "user", isActive := true
                    failedLoginAttempts := 0, accountLockedUntil := none
                    lastLoginAt := none, twoFactorEnabled := false }]
        verifications := [{ id := 2, userID := 1, email := "a@x.com"
                            vtype := "otp", code := "111111", expiresAt := 1000
                            usedAt := some 50, createdAt := 20
                            updatedAt := 50 }] }
      1 "111111" .email 100).2 (by decide)⟩

/-- C7: `ValidateSession` returns a session exactly when some stored
session carries the token, is active, and expires strictly in the
future; the session it returns satisfies those conditions and has its
last-accessed time set to now; and after `InvalidateUserSessions` for
the identity owning the token's sessions, validation of that token fails
with the store's single generic not-found outcome, regardless of
expiry. -/
theorem validateSession_iff_and_revocation (sessions : List UserSession)
    (token : String) (now : Nat) :
    ((SessionService.validateSession sessions token now).fst.isSome ↔
      ∃ s ∈ sessions, s.token = token ∧ s.isActive = true ∧ now < s.expiresAt) ∧
    (∀ s', (SessionService.validateSession sessions token now).fst = some s' →
      s'.token = token ∧ s'.isActive = true ∧ now < s'.expiresAt ∧
      s'.updatedAt = now) ∧
    (∀ uid now2, (∀ s ∈ sessions, s.token = token → s.userID = uid) →
      (SessionService.validateSession
        (SessionService.invalidateUserSessions sessions uid now2)
        token now).fst = none) := by
  refine ⟨?_, ?_, ?_⟩
  · constructor
    · intro h
      cases hfind : sessions.find?
          (fun s => s.token = token && s.isActive && now < s.expiresAt) with
      | none =>
        rw [SessionService.validateSession.eq_def, hfind] at h
        simp at h
      | some s =>
        have hmem := List.mem_of_find?_eq_some hfind
        have hp := List.find?_some hfind
        simp only [Bool.and_eq_true, decide_eq_true_eq] at hp
        exact ⟨s, hmem, hp.1.1, hp.1.2, hp.2⟩
    · rintro ⟨s, hs, h1, h2, h3⟩
      have hsome : (sessions.find?
          (fun s => s.token = token && s.isActive && now < s.expiresAt)).isSome := by
        rw [List.find?_isSome]
        exact ⟨s, hs, by simp [h1, h2, h3]⟩
      cases hfind : sessions.find?
          (fun s => s.token = token && s.isActive && now < s.expiresAt) with
      | none =>
        rw [hfind] at hsome
        simp at hsome
      | some s0 =>
        simp [SessionService.validateSession, hfind]
  · intro s' h
    cases hfind : sessions.find?
        (fun s => s.token = token && s.isActive && now < s.expiresAt) with
    | none =>
      rw [SessionService.validateSession.eq_def, hfind] at h
      simp at h
    | some s =>
      rw [SessionService.validateSession.eq_def, hfind] at h
      simp only [Option.some.injEq] at h
      subst h
      have hp := List.find?_some hfind
      simp only [Bool.and_eq_true, decide_eq_true_eq] at hp
      exact ⟨hp.1.1, hp.1.2, hp.2, rfl⟩
  · intro uid now2 hown
    have hnone : (SessionService.invalidateUserSessions sessions uid now2).find?
        (fun s => s.token = token && s.isActive && now < s.expiresAt) = none := by
      rw [List.find?_eq_none]
      intro x hx hpx
      obtain ⟨a, ha, hfa⟩ := List.mem_map.mp hx
      simp only [Bool.and_eq_true, decide_eq_true_eq] at hpx
      obtain ⟨⟨htok, hact⟩, _⟩ := hpx
      cases hc : (decide (a.userID = uid) && a.isActive) with
      | true =>
        rw [if_pos hc] at hfa
        subst hfa
        exact absurd hact (by simp)
      | false =>
        rw [if_neg (by simp [hc])] at hfa
        subst hfa
        have huid : a.userID = uid := hown a ha htok
        rw [huid, hact] at hc
        simp at hc
    simp [SessionService.validateSession, hnone]

/-- Witness for `validateSession_iff_and_revocation` at a concrete
session store: the validated session has last-accessed touched, and
after invalidating the owner's sessions validation fails. -/
theorem validateSession_iff_and_revocation_witness :
    (({ id := "sid1", userID := "u1", token := "tok1", ipAddress := "ip"
        userAgent := "ua", isActive := true, createdAt := 0
        updatedAt := 100, expiresAt := 1000 } : UserSession).token = "tok1" ∧
      ({ id := "sid1", userID := "u1", token := "tok1", ipAddress := "ip"
         userAgent := "ua", isActive := true, createdAt := 0
         updatedAt := 100, expiresAt := 1000 } : UserSession).isActive = true ∧
      100 < ({ id := "sid1", userID := "u1", token := "tok1", ipAddress := "ip"
               userAgent := "ua", isActive := true, createdAt := 0
               updatedAt := 100, expiresAt := 1000 } : UserSession).expiresAt ∧
      ({ id := "sid1", userID := "u1", token := "tok1", ipAddress := "ip"
         userAgent := "ua", isActive := true, createdAt := 0
         updatedAt := 100, expiresAt := 1000 } : UserSession).updatedAt = 100) ∧
    (SessionService.validateSession
      (SessionService.invalidateUserSessions
        [{ id := "sid1", userID := "u1", token := "tok1", ipAddress := "ip"
           userAgent := "ua", isActive := true, createdAt := 0
           updatedAt := 0, expiresAt := 1000 }] "u1" 50)
      "tok1" 100).fst = none :=
  ⟨(validateSession_iff_and_revocation
      [{ id := "sid1", userID := "u1", token := "tok1", ipAddress := "ip"
         userAgent := "ua", isActive := true, createdAt := 0
         updatedAt := 0, expiresAt := 1000 }] "tok1" 100).2.1
      { id := "sid1", userID := "u1", token := "tok1", ipAddress := "ip"
        userAgent := "ua", isActive := true, createdAt := 0
        updatedAt := 100, expiresAt := 1000 } rfl,
   (validateSession_iff_and_revocation
      [{ id := "sid1", userID := "u1", token := "tok1", ipAddress := "ip"
         userAgent := "ua", isActive := true, createdAt := 0
         updatedAt := 0, expiresAt := 1000 }] "tok1" 100).2.2
      "u1" 50 (by decide)⟩

/-- The gorm `BeforeCreate` hook leaves a non-empty role unchanged. -/
theorem User.beforeCreate_role (salt : Nat) (u : User) (h : ¬ u.role = "") :
    (User.beforeCreate salt u).role = u.role := by
  unfold User.beforeCreate
  by_cases hp : u.password.isEmptyStr
  · simp [hp, h]
  · simp [hp, h]

/-- C9: `Register` honors any caller-supplied role.  When no identity
with the request's email or username exists, registration succeeds and
the created identity is stored with exactly the requested role — `admin`
and `moderator` included — while the role defaults to `user` only when
the request's role field is empty; and the role claim of the returned
token equals the stored role. -/
theorem register_honors_requested_role (db : List User) (secret : String)
    (expiry now newID salt : Nat) (req : UserCreateRequest)
    (hdup : db.find?
      (fun u => u.email = req.email || u.username = req.username) = none) :
    ∃ resp created,
      UserService.register db secret expiry now newID salt req =
        Except.ok (resp, db ++ [created]) ∧
      created.role = (if req.role = "" then RoleUser else req.role) ∧
      resp.user.role = created.role ∧
      resp.token.roleClaim = some created.role := by
  refine ⟨{ token := JWTService.generateToken secret expiry now
              (User.beforeCreate salt
                { id := newID, email := req.email, username := req.username
                  password := .plain req.password, firstName := req.firstName
                  lastName := req.lastName
                  role := if req.role = "" then RoleUser else req.role
                  isActive := true, failedLoginAttempts := 0
                  accountLockedUntil := none, lastLoginAt := none
                  twoFactorEnabled := false })
            user := (User.beforeCreate salt
              { id := newID, email := req.email, username := req.username
                password := .plain req.password, firstName := req.firstName
                lastName := req.lastName
                role := if req.role = "" then RoleUser else req.role
                isActive := true, failedLoginAttempts := 0
                accountLockedUntil := none, lastLoginAt := none
                twoFactorEnabled := false }).toResponse },
          User.beforeCreate salt
            { id := newID, email := req.email, username := req.username
              password := .plain req.password, firstName := req.firstName
              lastName := req.lastName
              role := if req.role = "" then RoleUser else req.role
              isActive := true, failedLoginAttempts := 0
              accountLockedUntil := none, lastLoginAt := none
              twoFactorEnabled := false }, ?_, ?_, rfl, rfl⟩
  · simp [UserService.register, hdup]
  · have hne : ¬ (if req.role = "" then RoleUser else req.role) = "" := by
      by_cases hr : req.role = ""
      · simp [hr, RoleUser]
      · simp [hr]
    exact User.beforeCreate_role salt _ hne

/-- Witness for `register_honors_requested_role`: an unauthenticated
registration request carrying role `admin` against an empty store. -/
theorem register_honors_requested_role_witness :
    ∃ resp created,
      UserService.register [] "k" 60 0 1 9
        { email := "e@x.com", username := "eve", password := "p"
          firstName := "E", lastName := "V", role := "admin" } =
        Except.ok (resp, [] ++ [created]) ∧
      created.role = (if "admin" = "" then RoleUser else "admin") ∧
      resp.user.role = created.role ∧
      resp.token.roleClaim = some created.role :=
  register_honors_requested_role [] "k" 60 0 1 9
    { email := "e@x.com", username := "eve", password := "p"
      firstName := "E", lastName := "V", role := "admin" } rfl
